import Mathlib

/-!
# multi_gpu_gemm.cpp : the measurement engine

A shallow embedding of `main` of `src/cpp/multi_gpu_gemm.cpp`.

* The device library and the wall clock are an explicit `World`: the status
  every library call returns and the value every `get_time()` call returns.
* `main` is written in state-passing style over `St`, which holds the call
  counters, the local `latencies` and the trace of library calls made so far.
* A C++ `double` is a `Dbl`: an exact rational or one of the IEEE special
  values `+inf`, `-inf`, `NaN`.  Arithmetic on finite values is exact (the
  rounding of binary64 and the sign of zero are outside the embedding);
  division by zero follows IEEE 754.  Clock readings are finite.
* `int iters = latencies.size()` is taken as value preserving (a run records
  one sample per completed multiply, fewer than `2^31` of them).
* The `while` loop takes fuel; `Outcome.running` is the loop still running when
  the fuel is used up.
* Not embedded: the text of the report, the contents of the host buffers and
  the OpenMP initialisation loop.
-/

namespace MultiGpuGemm

/-! ## Doubles -/

/-- Value of a C++ `double`: a finite (exact) value or an IEEE special value. -/
inductive Dbl where
  | fin (q : ℚ)
  | pinf
  | ninf
  | nan
  deriving DecidableEq

namespace Dbl

/-- IEEE 754 division, exact on finite operands with a non-zero divisor. -/
def div : Dbl → Dbl → Dbl
  | nan, _ => nan
  | _, nan => nan
  | fin a, fin b =>
      if b = 0 then (if a = 0 then nan else if 0 < a then pinf else ninf) else fin (a / b)
  | fin _, pinf => fin 0
  | fin _, ninf => fin 0
  | pinf, fin b => if 0 ≤ b then pinf else ninf
  | ninf, fin b => if 0 ≤ b then ninf else pinf
  | pinf, pinf => nan
  | pinf, ninf => nan
  | ninf, pinf => nan
  | ninf, ninf => nan

/-- IEEE 754 multiplication, exact on finite operands. -/
def mul : Dbl → Dbl → Dbl
  | nan, _ => nan
  | _, nan => nan
  | fin a, fin b => fin (a * b)
  | fin a, pinf => if a = 0 then nan else if 0 < a then pinf else ninf
  | fin a, ninf => if a = 0 then nan else if 0 < a then ninf else pinf
  | pinf, fin b => if b = 0 then nan else if 0 < b then pinf else ninf
  | ninf, fin b => if b = 0 then nan else if 0 < b then ninf else pinf
  | pinf, pinf => pinf
  | pinf, ninf => ninf
  | ninf, pinf => ninf
  | ninf, ninf => pinf

/-- The comparison `x > y` of two doubles; false as soon as one side is NaN. -/
def gt : Dbl → Dbl → Bool
  | nan, _ => false
  | _, nan => false
  | fin a, fin b => decide (b < a)
  | pinf, pinf => false
  | pinf, _ => true
  | ninf, _ => false
  | fin _, pinf => false
  | fin _, ninf => true

/-- A double that is neither infinite nor NaN. -/
def isFinite : Dbl → Bool
  | fin _ => true
  | _ => false

end Dbl

/-! ## The world and the state -/

/-- What the device library and the clock answer during one run. -/
structure World where
  /-- Status of `cudaGetDeviceCount` (true: `cudaSuccess`). -/
  getDeviceCount : Bool
  /-- Value `cudaGetDeviceCount` stores in `num_devices`. -/
  num_devices : Nat
  /-- Status of `cublasXtCreate`. -/
  xtCreate : Bool
  /-- Status of `cublasXtDeviceSelect`. -/
  xtDeviceSelect : Bool
  /-- Status of `cublasXtSetBlockDim`. -/
  xtSetBlockDim : Bool
  /-- Status of the `k`-th `cudaMallocHost` call. -/
  mallocHost : Nat → Bool
  /-- Status of the `k`-th `cublasXtSgemm` call (true: `CUBLAS_STATUS_SUCCESS`). -/
  sgemm : Nat → Bool
  /-- Status of the `k`-th `cudaDeviceSynchronize` call (true: `cudaSuccess`). -/
  deviceSynchronize : Nat → Bool
  /-- Value returned by the `k`-th `get_time()` call, in seconds. -/
  time : Nat → ℚ

/-- Calls that leave `main`, in program order. -/
inductive Event where
  | cudaGetDeviceCount
  | cublasXtCreate
  | cublasXtDeviceSelect (n : Nat)
  | cublasXtSetBlockDim (dim : Nat)
  | cudaMallocHost (size_bytes : Nat)
  | cublasXtSgemm (k : Nat)
  | cudaDeviceSynchronize (k : Nat)
  | get_time (k : Nat)
  | push_back (x : ℚ)
  | cublasXtDestroy
  | cudaFreeHost
  deriving DecidableEq

/-- State threaded through `main`. -/
structure St where
  /-- Number of `get_time()` calls made. -/
  reads : Nat
  /-- Number of `cublasXtSgemm` calls made. -/
  calls : Nat
  /-- Number of `cudaDeviceSynchronize` calls made. -/
  syncs : Nat
  /-- Number of `cudaMallocHost` calls made. -/
  mallocs : Nat
  /-- The local `std::vector<double> latencies`. -/
  latencies : List ℚ
  /-- Calls made so far, oldest first. -/
  trace : List Event
  deriving DecidableEq

/-- State at the entry of `main`. -/
def St.init : St :=
  { reads := 0, calls := 0, syncs := 0, mallocs := 0, latencies := [], trace := [] }

/-- Append one event to the trace. -/
def St.emit (s : St) (e : Event) : St :=
  { s with trace := s.trace ++ [e] }

/-- The function `get_time()`: the next clock reading. -/
def get_time (w : World) (s : St) : ℚ × St :=
  (w.time s.reads, { s.emit (Event.get_time s.reads) with reads := s.reads + 1 })

/-- One call `cublasXtSgemm(handle, ..., N, N, N, ...)`: its status. -/
def cublasXtSgemm (w : World) (s : St) : Bool × St :=
  (w.sgemm s.calls, { s.emit (Event.cublasXtSgemm s.calls) with calls := s.calls + 1 })

/-- One call `cudaDeviceSynchronize()`: its status. -/
def cudaDeviceSynchronize (w : World) (s : St) : Bool × St :=
  (w.deviceSynchronize s.syncs,
    { s.emit (Event.cudaDeviceSynchronize s.syncs) with syncs := s.syncs + 1 })

/-- One call `cudaMallocHost(&p, size_bytes)`: its status. -/
def cudaMallocHost (w : World) (size_bytes : Nat) (s : St) : Bool × St :=
  (w.mallocHost s.mallocs,
    { s.emit (Event.cudaMallocHost size_bytes) with mallocs := s.mallocs + 1 })

/-- The statement `latencies.push_back(x)`. -/
def push_back (x : ℚ) (s : St) : St :=
  { s.emit (Event.push_back x) with latencies := s.latencies ++ [x] }

/-! ## The sampling loop (lines 70-75) -/

/-- How the `while` loop is left. -/
inductive LoopResult where
  /-- The loop condition was false: control reaches line 77. -/
  | done (s : St)
  /-- The macro `CHECK_CUBLAS` called `exit(-1)` inside the body. -/
  | failed (s : St)
  /-- The fuel is used up with the loop still running. -/
  | running (s : St)
  deriving DecidableEq

/-- The loop `while ((get_time() - start_test) < duration) { ... }`. -/
def samplingLoop (w : World) (duration : Int) (start_test : ℚ) : Nat → St → LoopResult
  | 0, s => LoopResult.running s
  | fuel + 1, s =>
    let c := get_time w s
    if c.1 - start_test < (duration : ℚ) then
      let a := get_time w c.2
      let g := cublasXtSgemm w a.2
      if g.1 then
        let y := cudaDeviceSynchronize w g.2
        let b := get_time w y.2
        samplingLoop w duration start_test fuel (push_back (b.1 - a.1) b.2)
      else LoopResult.failed g.2
    else LoopResult.done c.2

/-! ## The metrics (lines 77-88) and the diagnosis (lines 108-112) -/

/-- The locals computed on lines 77-88. -/
structure Stats where
  iters : Int
  total_time : Dbl
  time_per_calc : Dbl
  data_moved_gb : Dbl
  throughput_gbs : Dbl
  ops_per_iter : Dbl
  compute_tflops : Dbl
  utilization : Dbl
  deriving DecidableEq

/-- The constant `sizeof(float)`. -/
def sizeof_float : Nat := 4

/-- The constant `pcie_ref = 31.5`. -/
def pcie_ref : ℚ := 31.5

/-- The call `std::accumulate(latencies.begin(), latencies.end(), 0.0)`. -/
def accumulate (latencies : List ℚ) : ℚ :=
  latencies.foldl (fun acc x => acc + x) 0

/-- Lines 77-88 of `main`. `iters` is `latencies.size()` stored in an `int`, equal to the
number of samples for fewer than `2^31` of them. -/
def computeStats (N : Int) (latencies : List ℚ) : Stats :=
  let iters : Int := latencies.length
  let total_time := Dbl.fin (accumulate latencies)
  let time_per_calc := Dbl.div total_time (Dbl.fin iters)
  let data_moved_gb :=
    Dbl.div (Dbl.fin (3 * (N : ℚ) * (N : ℚ) * (sizeof_float : ℚ))) (Dbl.fin (1024 * 1024 * 1024))
  let throughput_gbs := Dbl.div data_moved_gb time_per_calc
  let ops_per_iter := Dbl.fin (2 * (N : ℚ) ^ 3)
  let compute_tflops := Dbl.div (Dbl.div ops_per_iter time_per_calc) (Dbl.fin 1000000000000)
  let utilization := Dbl.mul (Dbl.div throughput_gbs (Dbl.fin pcie_ref)) (Dbl.fin 100)
  { iters := iters, total_time := total_time, time_per_calc := time_per_calc,
    data_moved_gb := data_moved_gb, throughput_gbs := throughput_gbs,
    ops_per_iter := ops_per_iter, compute_tflops := compute_tflops,
    utilization := utilization }

/-- The two diagnoses the report can print. -/
inductive Classification where
  /-- Printed as "I/O Bound". -/
  | TransferBound
  /-- Printed as "Compute Bound". -/
  | ComputeBound
  deriving DecidableEq

/-- The branch `if (utilization > 85.0)` of lines 108-112. -/
def classify (utilization : Dbl) : Classification :=
  if Dbl.gt utilization (Dbl.fin 85) then Classification.TransferBound
  else Classification.ComputeBound

/-! ## The program -/

/-- How a run of `main` ends. -/
inductive Outcome where
  /-- The report was printed and `main` returned 0. -/
  | returned (stats : Stats) (diagnosis : Classification)
  /-- A `CHECK_CUDA` or `CHECK_CUBLAS` macro called `exit(-1)` after the failing call. -/
  | exited (failing : Event)
  /-- The fuel is used up with the sampling loop still running. -/
  | running
  deriving DecidableEq

/-- A run: how it ended and the final state. -/
structure Run where
  outcome : Outcome
  final : St
  deriving DecidableEq

/-- The argument of `cudaMallocHost`: `(size_t)N * N * sizeof(float)` in 64-bit `size_t`. -/
def size_bytes (N : Int) : Nat :=
  ((N * N * sizeof_float) % 2 ^ 64).toNat

/-- Lines 77-117: metrics, report, release of the resources, `return 0`. -/
def report (N : Int) (s : St) : Run :=
  let stats := computeStats N s.latencies
  let s1 := s.emit Event.cublasXtDestroy
  let s2 := ((s1.emit Event.cudaFreeHost).emit Event.cudaFreeHost).emit Event.cudaFreeHost
  { outcome := Outcome.returned stats (classify stats.utilization), final := s2 }

/-- Lines 63-75: warm-up, start time, sampling loop; then the report. -/
def measure (fuel : Nat) (w : World) (N duration : Int) (s : St) : Run :=
  let g := cublasXtSgemm w s
  if g.1 then
    let y := cudaDeviceSynchronize w g.2
    let t := get_time w y.2
    match samplingLoop w duration t.1 fuel t.2 with
    | LoopResult.done s1 => report N s1
    | LoopResult.failed s1 =>
        { outcome := Outcome.exited (Event.cublasXtSgemm (s1.calls - 1)), final := s1 }
    | LoopResult.running s1 => { outcome := Outcome.running, final := s1 }
  else { outcome := Outcome.exited (Event.cublasXtSgemm s.calls), final := g.2 }

/-- Lines 42-56: device enumeration, handle creation, the three host buffers. -/
def setup (w : World) (N : Int) (s : St) : Except Run St :=
  let s1 := s.emit Event.cudaGetDeviceCount
  if w.getDeviceCount then
    let s2 := s1.emit Event.cublasXtCreate
    if w.xtCreate then
      let s3 := s2.emit (Event.cublasXtDeviceSelect w.num_devices)
      if w.xtDeviceSelect then
        let s4 := s3.emit (Event.cublasXtSetBlockDim 4096)
        if w.xtSetBlockDim then
          let a := cudaMallocHost w (size_bytes N) s4
          if a.1 then
            let b := cudaMallocHost w (size_bytes N) a.2
            if b.1 then
              let c := cudaMallocHost w (size_bytes N) b.2
              if c.1 then Except.ok c.2
              else Except.error
                { outcome := Outcome.exited (Event.cudaMallocHost (size_bytes N)), final := c.2 }
            else Except.error
              { outcome := Outcome.exited (Event.cudaMallocHost (size_bytes N)), final := b.2 }
          else Except.error
            { outcome := Outcome.exited (Event.cudaMallocHost (size_bytes N)), final := a.2 }
        else Except.error
          { outcome := Outcome.exited (Event.cublasXtSetBlockDim 4096), final := s4 }
      else Except.error
        { outcome := Outcome.exited (Event.cublasXtDeviceSelect w.num_devices), final := s3 }
    else Except.error { outcome := Outcome.exited Event.cublasXtCreate, final := s2 }
  else Except.error { outcome := Outcome.exited Event.cudaGetDeviceCount, final := s1 }

/-- The value of `N` after lines 35 and 37 (default 16384). -/
def argN (args : List Int) : Int := (args.get? 0).getD 16384

/-- The value of `duration` after lines 36 and 38 (default 10). -/
def argDuration (args : List Int) : Int := (args.get? 1).getD 10

/-- The function `main`; `args` holds `atoi(argv[1])`, `atoi(argv[2])`, ... for the
arguments present on the command line. -/
def main (fuel : Nat) (w : World) (args : List Int) : Run :=
  let N : Int := argN args
  let duration : Int := argDuration args
  match setup w N St.init with
  | Except.error r => r
  | Except.ok s => measure fuel w N duration s

/-! ## Closed forms used in the statements -/

/-- State after one complete pass through the loop body (lines 70-74), all calls made. -/
def bodyState (w : World) (s : St) : St :=
  let a := get_time w (get_time w s).2
  let b := get_time w (cudaDeviceSynchronize w (cublasXtSgemm w a.2).2).2
  push_back (b.1 - a.1) b.2

/-- The sample pushed by iteration `i` of a loop entered after `r` clock readings:
the reading after the wait minus the reading before the call. -/
def sampleAt (w : World) (r i : Nat) : ℚ :=
  w.time (r + 3 * i + 2) - w.time (r + 3 * i + 1)

/-- The calls made by iteration `i` of a loop entered with counters `r`, `c`, `y`. -/
def iterEvents (w : World) (r c y i : Nat) : List Event :=
  [Event.get_time (r + 3 * i), Event.get_time (r + 3 * i + 1), Event.cublasXtSgemm (c + i),
    Event.cudaDeviceSynchronize (y + i), Event.get_time (r + 3 * i + 2),
    Event.push_back (sampleAt w r i)]

/-- State after `k` complete iterations of the loop entered in state `s`. -/
def afterIters (w : World) (s : St) (k : Nat) : St :=
  { reads := s.reads + 3 * k, calls := s.calls + k, syncs := s.syncs + k, mallocs := s.mallocs,
    latencies := s.latencies ++ (List.range k).map (sampleAt w s.reads),
    trace := s.trace ++ (List.range k).flatMap (iterEvents w s.reads s.calls s.syncs) }

/-- State in which the loop is left after `k` iterations: one more clock reading. -/
def exitState (w : World) (s : St) (k : Nat) : St :=
  (get_time w (afterIters w s k)).2

/-- State in which `CHECK_CUBLAS` leaves the program when the multiply of iteration `k`
fails: the check, the reading of `t0` and the failing call are the last calls made. -/
def failState (w : World) (s : St) (k : Nat) : St :=
  (cublasXtSgemm w (get_time w (get_time w (afterIters w s k)).2).2).2

/-- The loop condition at the check that precedes iteration `i`. -/
def checkPasses (w : World) (duration : Int) (start_test : ℚ) (r i : Nat) : Prop :=
  w.time (r + 3 * i) - start_test < (duration : ℚ)

/-- Every call of lines 42-56 reports success. -/
def setupOk (w : World) : Prop :=
  w.getDeviceCount = true ∧ w.xtCreate = true ∧ w.xtDeviceSelect = true ∧
    w.xtSetBlockDim = true ∧ w.mallocHost 0 = true ∧ w.mallocHost 1 = true ∧
    w.mallocHost 2 = true

/-- The calls of lines 42-56 when all of them succeed. -/
def setupTrace (w : World) (N : Int) : List Event :=
  [Event.cudaGetDeviceCount, Event.cublasXtCreate, Event.cublasXtDeviceSelect w.num_devices,
    Event.cublasXtSetBlockDim 4096, Event.cudaMallocHost (size_bytes N),
    Event.cudaMallocHost (size_bytes N), Event.cudaMallocHost (size_bytes N)]

/-- State at the first evaluation of the loop condition: set-up done, warm-up done,
`start_test` read. -/
def loopEntry (w : World) (N : Int) : St :=
  { reads := 1, calls := 1, syncs := 1, mallocs := 3, latencies := [],
    trace := setupTrace w N ++
      [Event.cublasXtSgemm 0, Event.cudaDeviceSynchronize 0, Event.get_time 0] }

/-- The calls of lines 115-116. -/
def cleanupTrace : List Event :=
  [Event.cublasXtDestroy, Event.cudaFreeHost, Event.cudaFreeHost, Event.cudaFreeHost]

/-- Number of `cublasXtSgemm` calls in a trace. -/
def invocations (tr : List Event) : Nat :=
  tr.countP (fun e => match e with
    | Event.cublasXtSgemm _ => true
    | _ => false)

/-- World in which every call succeeds and successive clock readings are 1/4 s apart. -/
def steadyWorld : World :=
  { getDeviceCount := true, num_devices := 2, xtCreate := true, xtDeviceSelect := true,
    xtSetBlockDim := true, mallocHost := fun _ => true, sgemm := fun _ => true,
    deviceSynchronize := fun _ => true, time := fun n => (n : ℚ) / 4 }

/-- World in which every call succeeds and the clock does not move during the first
timed multiply: readings 0, 0, 1/2, 1/2, 1, 1, ... -/
def zeroWorld : World :=
  { steadyWorld with time := fun n => if n < 2 then 0 else if n < 4 then 1 / 2 else 1 }

/-- World of `steadyWorld` in which every `cudaDeviceSynchronize` reports an error. -/
def syncFailWorld : World :=
  { steadyWorld with deviceSynchronize := fun _ => false }

theorem afterIters_zero (w : World) (s : St) : afterIters w s 0 = s := by
  cases s; simp [afterIters]

theorem afterIters_succ (w : World) (s : St) (k : Nat) :
    afterIters w s (k + 1) = bodyState w (afterIters w s k) := by
  simp [afterIters, bodyState, get_time, cublasXtSgemm, cudaDeviceSynchronize, push_back,
    St.emit, List.range_succ, iterEvents, sampleAt]
  omega

theorem samplingLoop_body (w : World) (d : Int) (T0 : ℚ) (fuel : Nat) (s : St)
    (hc : w.time s.reads - T0 < (d : ℚ)) (hg : w.sgemm s.calls = true) :
    samplingLoop w d T0 (fuel + 1) s = samplingLoop w d T0 fuel (bodyState w s) := by
  simp [samplingLoop, bodyState, get_time, cublasXtSgemm, cudaDeviceSynchronize, push_back,
    St.emit, hc, hg]

theorem samplingLoop_exit (w : World) (d : Int) (T0 : ℚ) (fuel : Nat) (s : St)
    (hc : ¬ w.time s.reads - T0 < (d : ℚ)) :
    samplingLoop w d T0 (fuel + 1) s = LoopResult.done (get_time w s).2 := by
  simp [samplingLoop, get_time, St.emit, hc]

theorem samplingLoop_fail (w : World) (d : Int) (T0 : ℚ) (fuel : Nat) (s : St)
    (hc : w.time s.reads - T0 < (d : ℚ)) (hg : w.sgemm s.calls = false) :
    samplingLoop w d T0 (fuel + 1) s =
      LoopResult.failed (cublasXtSgemm w (get_time w (get_time w s).2).2).2 := by
  simp [samplingLoop, get_time, cublasXtSgemm, St.emit, hc, hg]

theorem samplingLoop_unroll (w : World) (d : Int) (T0 : ℚ) (s : St) (k : Nat) :
    ∀ fuel : Nat,
      (∀ i, i < k → checkPasses w d T0 s.reads i ∧ w.sgemm (s.calls + i) = true) →
      samplingLoop w d T0 (fuel + k) s = samplingLoop w d T0 fuel (afterIters w s k) := by
  induction k with
  | zero => intro fuel _; simp [afterIters_zero]
  | succ k ih =>
    intro fuel h
    have hk := h k (Nat.lt_succ_self k)
    have e : fuel + (k + 1) = (fuel + 1) + k := by omega
    rw [e, ih (fuel + 1) (fun i hi => h i (Nat.lt_succ_of_lt hi)), afterIters_succ]
    exact samplingLoop_body w d T0 fuel (afterIters w s k) hk.1 hk.2

theorem samplingLoop_done_of (w : World) (d : Int) (T0 : ℚ) (s : St) (k fuel : Nat)
    (h : ∀ i, i < k → checkPasses w d T0 s.reads i ∧ w.sgemm (s.calls + i) = true)
    (hk : ¬ checkPasses w d T0 s.reads k) (hf : k < fuel) :
    samplingLoop w d T0 fuel s = LoopResult.done (exitState w s k) := by
  obtain ⟨m, rfl⟩ : ∃ m, fuel = (m + 1) + k := ⟨fuel - k - 1, by omega⟩
  rw [samplingLoop_unroll w d T0 s k (m + 1) h]
  exact samplingLoop_exit w d T0 m (afterIters w s k) hk

theorem samplingLoop_failed_of (w : World) (d : Int) (T0 : ℚ) (s : St) (k fuel : Nat)
    (h : ∀ i, i < k → checkPasses w d T0 s.reads i ∧ w.sgemm (s.calls + i) = true)
    (hk : checkPasses w d T0 s.reads k) (hg : w.sgemm (s.calls + k) = false) (hf : k < fuel) :
    samplingLoop w d T0 fuel s = LoopResult.failed (failState w s k) := by
  obtain ⟨m, rfl⟩ : ∃ m, fuel = (m + 1) + k := ⟨fuel - k - 1, by omega⟩
  rw [samplingLoop_unroll w d T0 s k (m + 1) h]
  exact samplingLoop_fail w d T0 m (afterIters w s k) hk hg

theorem samplingLoop_done_inv_aux (w : World) (d : Int) (T0 : ℚ) (s s' : St) :
    ∀ fuel j : Nat,
      (∀ i, i < j → checkPasses w d T0 s.reads i ∧ w.sgemm (s.calls + i) = true) →
      samplingLoop w d T0 fuel (afterIters w s j) = LoopResult.done s' →
      ∃ k, k < j + fuel ∧
        (∀ i, i < k → checkPasses w d T0 s.reads i ∧ w.sgemm (s.calls + i) = true) ∧
        ¬ checkPasses w d T0 s.reads k ∧ s' = exitState w s k := by
  intro fuel
  induction fuel with
  | zero => intro j _ h; simp [samplingLoop] at h
  | succ fuel ih =>
    intro j hj h
    by_cases hc : checkPasses w d T0 s.reads j
    · cases hg : w.sgemm (s.calls + j) with
      | false =>
        rw [samplingLoop_fail w d T0 fuel (afterIters w s j) hc hg] at h
        cases h
      | true =>
        rw [samplingLoop_body w d T0 fuel (afterIters w s j) hc hg, ← afterIters_succ] at h
        have hj' : ∀ i, i < j + 1 →
            checkPasses w d T0 s.reads i ∧ w.sgemm (s.calls + i) = true := by
          intro i hi
          rcases Nat.lt_succ_iff_lt_or_eq.mp hi with h1 | h1
          · exact hj i h1
          · subst h1; exact ⟨hc, hg⟩
        obtain ⟨k, hk, hall, hnot, hs⟩ := ih (j + 1) hj' h
        exact ⟨k, by omega, hall, hnot, hs⟩
    · rw [samplingLoop_exit w d T0 fuel (afterIters w s j) hc] at h
      refine ⟨j, by omega, hj, hc, ?_⟩
      cases h; rfl

theorem samplingLoop_failed_inv_aux (w : World) (d : Int) (T0 : ℚ) (s s' : St) :
    ∀ fuel j : Nat,
      (∀ i, i < j → checkPasses w d T0 s.reads i ∧ w.sgemm (s.calls + i) = true) →
      samplingLoop w d T0 fuel (afterIters w s j) = LoopResult.failed s' →
      ∃ k, k < j + fuel ∧
        (∀ i, i < k → checkPasses w d T0 s.reads i ∧ w.sgemm (s.calls + i) = true) ∧
        checkPasses w d T0 s.reads k ∧ w.sgemm (s.calls + k) = false ∧
        s' = failState w s k := by
  intro fuel
  induction fuel with
  | zero => intro j _ h; simp [samplingLoop] at h
  | succ fuel ih =>
    intro j hj h
    by_cases hc : checkPasses w d T0 s.reads j
    · cases hg : w.sgemm (s.calls + j) with
      | false =>
        rw [samplingLoop_fail w d T0 fuel (afterIters w s j) hc hg] at h
        refine ⟨j, by omega, hj, hc, hg, ?_⟩
        cases h; rfl
      | true =>
        rw [samplingLoop_body w d T0 fuel (afterIters w s j) hc hg, ← afterIters_succ] at h
        have hj' : ∀ i, i < j + 1 →
            checkPasses w d T0 s.reads i ∧ w.sgemm (s.calls + i) = true := by
          intro i hi
          rcases Nat.lt_succ_iff_lt_or_eq.mp hi with h1 | h1
          · exact hj i h1
          · subst h1; exact ⟨hc, hg⟩
        obtain ⟨k, hk, hall, hpass, hbad, hs⟩ := ih (j + 1) hj' h
        exact ⟨k, by omega, hall, hpass, hbad, hs⟩
    · rw [samplingLoop_exit w d T0 fuel (afterIters w s j) hc] at h
      cases h

theorem samplingLoop_done_inv (w : World) (d : Int) (T0 : ℚ) (fuel : Nat) (s s' : St)
    (h : samplingLoop w d T0 fuel s = LoopResult.done s') :
    ∃ k, k < fuel ∧
      (∀ i, i < k → checkPasses w d T0 s.reads i ∧ w.sgemm (s.calls + i) = true) ∧
      ¬ checkPasses w d T0 s.reads k ∧ s' = exitState w s k := by
  have h0 := samplingLoop_done_inv_aux w d T0 s s' fuel 0 (fun i hi => absurd hi (Nat.not_lt_zero i))
    (by rw [afterIters_zero]; exact h)
  simpa using h0

theorem samplingLoop_failed_inv (w : World) (d : Int) (T0 : ℚ) (fuel : Nat) (s s' : St)
    (h : samplingLoop w d T0 fuel s = LoopResult.failed s') :
    ∃ k, k < fuel ∧
      (∀ i, i < k → checkPasses w d T0 s.reads i ∧ w.sgemm (s.calls + i) = true) ∧
      checkPasses w d T0 s.reads k ∧ w.sgemm (s.calls + k) = false ∧
      s' = failState w s k := by
  have h0 := samplingLoop_failed_inv_aux w d T0 s s' fuel 0
    (fun i hi => absurd hi (Nat.not_lt_zero i)) (by rw [afterIters_zero]; exact h)
  simpa using h0

/-! ## The program around the loop -/

theorem setup_ok (w : World) (N : Int) (h : setupOk w) :
    setup w N St.init =
      Except.ok { reads := 0, calls := 0, syncs := 0, mallocs := 3, latencies := [],
                  trace := setupTrace w N } := by
  obtain ⟨h1, h2, h3, h4, h5, h6, h7⟩ := h
  simp [setup, cudaMallocHost, St.emit, St.init, setupTrace, h1, h2, h3, h4, h5, h6, h7]

theorem setup_error (w : World) (N : Int) (h : ¬ setupOk w) :
    ∃ e s, setup w N St.init = Except.error { outcome := Outcome.exited e, final := s } ∧
      invocations s.trace = 0 := by
  unfold setupOk at h
  unfold setup
  simp only [cudaMallocHost, St.emit, St.init]
  split_ifs <;> first
    | exact ⟨_, _, rfl, by simp [invocations]⟩
    | (exfalso; apply h; simp_all)

theorem main_of_setup (fuel : Nat) (w : World) (args : List Int) (h : setupOk w)
    (hw : w.sgemm 0 = true) :
    main fuel w args =
      match samplingLoop w (argDuration args) (w.time 0) fuel (loopEntry w (argN args)) with
      | LoopResult.done s1 => report (argN args) s1
      | LoopResult.failed s1 =>
          { outcome := Outcome.exited (Event.cublasXtSgemm (s1.calls - 1)), final := s1 }
      | LoopResult.running s1 => { outcome := Outcome.running, final := s1 } := by
  have e := setup_ok w (argN args) h
  simp [main, e, measure, cublasXtSgemm, cudaDeviceSynchronize, get_time, St.emit, hw,
    loopEntry]

theorem main_warmup_failed (fuel : Nat) (w : World) (args : List Int) (h : setupOk w)
    (hw : w.sgemm 0 = false) :
    main fuel w args =
      { outcome := Outcome.exited (Event.cublasXtSgemm 0),
        final := { reads := 0, calls := 1, syncs := 0, mallocs := 3, latencies := [],
                   trace := setupTrace w (argN args) ++ [Event.cublasXtSgemm 0] } } := by
  have e := setup_ok w (argN args) h
  simp [main, e, measure, cublasXtSgemm, St.emit, hw]

theorem main_returned_inv (fuel : Nat) (w : World) (args : List Int) (st : Stats)
    (c : Classification) (h : (main fuel w args).outcome = Outcome.returned st c) :
    setupOk w ∧ w.sgemm 0 = true ∧
      ∃ k, k < fuel ∧
        (∀ i, i < k → checkPasses w (argDuration args) (w.time 0) 1 i ∧ w.sgemm (1 + i) = true) ∧
        ¬ checkPasses w (argDuration args) (w.time 0) 1 k ∧
        main fuel w args = report (argN args) (exitState w (loopEntry w (argN args)) k) := by
  by_cases hs : setupOk w
  · cases hw : w.sgemm 0 with
    | false =>
      rw [main_warmup_failed fuel w args hs hw] at h
      cases h
    | true =>
      refine ⟨hs, rfl, ?_⟩
      have e := main_of_setup fuel w args hs hw
      rw [e] at h
      cases hl : samplingLoop w (argDuration args) (w.time 0) fuel (loopEntry w (argN args)) with
      | done s1 =>
        obtain ⟨k, hk, hall, hnot, hs1⟩ := samplingLoop_done_inv w _ _ fuel _ s1 hl
        refine ⟨k, hk, hall, hnot, ?_⟩
        rw [e, hl, hs1]
      | failed s1 => rw [hl] at h; cases h
      | running s1 => rw [hl] at h; cases h
  · obtain ⟨e, s, he, _⟩ := setup_error w (argN args) hs
    simp [main, he] at h

theorem main_returns (fuel : Nat) (w : World) (args : List Int) (k : Nat) (hs : setupOk w)
    (hw : w.sgemm 0 = true)
    (h : ∀ i, i < k → checkPasses w (argDuration args) (w.time 0) 1 i ∧ w.sgemm (1 + i) = true)
    (hk : ¬ checkPasses w (argDuration args) (w.time 0) 1 k) (hf : k < fuel) :
    main fuel w args = report (argN args) (exitState w (loopEntry w (argN args)) k) := by
  rw [main_of_setup fuel w args hs hw,
    samplingLoop_done_of w (argDuration args) (w.time 0) (loopEntry w (argN args)) k fuel h hk hf]

theorem report_exitState (w : World) (N : Int) (k : Nat) :
    report N (exitState w (loopEntry w N) k) =
      { outcome := Outcome.returned (computeStats N ((List.range k).map (sampleAt w 1)))
          (classify (computeStats N ((List.range k).map (sampleAt w 1))).utilization),
        final :=
          { reads := 1 + 3 * k + 1, calls := 1 + k, syncs := 1 + k, mallocs := 3,
            latencies := (List.range k).map (sampleAt w 1),
            trace := setupTrace w N ++
              [Event.cublasXtSgemm 0, Event.cudaDeviceSynchronize 0, Event.get_time 0] ++
              (List.range k).flatMap (iterEvents w 1 1 1) ++ [Event.get_time (1 + 3 * k)] ++
              cleanupTrace } } := by
  simp [report, exitState, loopEntry, afterIters, get_time, St.emit, cleanupTrace]

theorem invocations_append (a b : List Event) :
    invocations (a ++ b) = invocations a + invocations b := by
  simp [invocations]

theorem invocations_iterations (w : World) (r c y k : Nat) :
    invocations ((List.range k).flatMap (iterEvents w r c y)) = k := by
  induction k with
  | zero => simp [invocations]
  | succ k ih =>
    rw [List.range_succ, List.flatMap_append, invocations_append, ih]
    simp [invocations, iterEvents]

theorem setupOk_steadyWorld : setupOk steadyWorld := by
  simp [setupOk, steadyWorld]

theorem steady_run :
    main 5 steadyWorld [1024, 1] =
      report 1024 (exitState steadyWorld (loopEntry steadyWorld 1024) 1) := by
  have h := main_returns 5 steadyWorld [1024, 1] 1 setupOk_steadyWorld rfl
    (by
      intro i hi
      have hi0 : i = 0 := by omega
      subst hi0
      refine ⟨?_, rfl⟩
      simp [checkPasses, steadyWorld, argDuration]
      norm_num)
    (by simp [checkPasses, steadyWorld, argDuration]) (by omega)
  simpa [argN] using h

theorem zero_run :
    main 5 zeroWorld [1024, 1] =
      report 1024 (exitState zeroWorld (loopEntry zeroWorld 1024) 1) := by
  have h := main_returns 5 zeroWorld [1024, 1] 1 (by simp [setupOk, zeroWorld, steadyWorld]) rfl
    (by
      intro i hi
      have hi0 : i = 0 := by omega
      subst hi0
      refine ⟨?_, rfl⟩
      simp [checkPasses, zeroWorld, argDuration])
    (by simp [checkPasses, zeroWorld, argDuration]) (by omega)
  simpa [argN] using h

theorem computeStats_quarter :
    computeStats 1024 [1 / 4] =
      { iters := 1, total_time := Dbl.fin (1 / 4), time_per_calc := Dbl.fin (1 / 4),
        data_moved_gb := Dbl.fin (3 / 256), throughput_gbs := Dbl.fin (3 / 64),
        ops_per_iter := Dbl.fin 2147483648, compute_tflops := Dbl.fin (2097152 / 244140625),
        utilization := Dbl.fin (25 / 168) } := by
  simp [computeStats, accumulate, Dbl.div, Dbl.mul, pcie_ref, sizeof_float]
  norm_num

theorem steady_samples : (List.range 1).map (sampleAt steadyWorld 1) = [1 / 4] := by
  simp [List.range_succ, sampleAt, steadyWorld]
  norm_num

theorem steady_outcome :
    (main 5 steadyWorld [1024, 1]).outcome =
      Outcome.returned (computeStats 1024 [1 / 4]) Classification.ComputeBound := by
  have hu : (computeStats 1024 [1 / 4]).utilization = Dbl.fin (25 / 168) := by
    rw [computeStats_quarter]
  rw [steady_run, report_exitState, steady_samples, hu]
  simp [classify, Dbl.gt]
  norm_num

theorem Dbl.div_fin (a b : ℚ) (hb : b ≠ 0) : Dbl.div (Dbl.fin a) (Dbl.fin b) = Dbl.fin (a / b) := by
  simp [Dbl.div, hb]

theorem main_stats (fuel : Nat) (w : World) (args : List Int) (st : Stats) (c : Classification)
    (h : (main fuel w args).outcome = Outcome.returned st c) :
    st = computeStats (argN args) (main fuel w args).final.latencies ∧
      c = classify st.utilization := by
  obtain ⟨_, _, k, _, _, _, hrun⟩ := main_returned_inv fuel w args st c h
  rw [hrun, report_exitState] at h
  simp only [Outcome.returned.injEq] at h
  rw [hrun, report_exitState]
  exact ⟨h.1.symm, by rw [← h.2, ← h.1]⟩

/-- C2 (amended). When the mean latency `time_per_calc` is zero, lines 77-117 raise no
error: they return the statistics, in which `throughput_gbs` and `compute_tflops` are not
finite; for `N > 0` both are `+inf`, so is `utilization`, and the diagnosis is
TransferBound. -/
theorem computeStats_zero_mean (N : Int) (s : List ℚ)
    (h0 : (computeStats N s).time_per_calc = Dbl.fin 0) :
    (∀ s0 : St, s0.latencies = s →
      (report N s0).outcome =
        Outcome.returned (computeStats N s) (classify (computeStats N s).utilization)) ∧
    (computeStats N s).throughput_gbs.isFinite = false ∧
    (computeStats N s).compute_tflops.isFinite = false ∧
    (0 < N →
      (computeStats N s).throughput_gbs = Dbl.pinf ∧
      (computeStats N s).compute_tflops = Dbl.pinf ∧
      (computeStats N s).utilization = Dbl.pinf ∧
      classify (computeStats N s).utilization = Classification.TransferBound) := by
  have hd : Dbl.div (Dbl.fin (3 * (N : ℚ) * (N : ℚ) * (sizeof_float : ℚ)))
      (Dbl.fin (1024 * 1024 * 1024)) =
      Dbl.fin (3 * (N : ℚ) * (N : ℚ) * (sizeof_float : ℚ) / (1024 * 1024 * 1024)) :=
    Dbl.div_fin _ _ (by norm_num)
  have key : ∀ x : Dbl, x = (computeStats N s).time_per_calc → x = Dbl.fin 0 := by
    intro x hx; rw [hx, h0]
  have e := key _ rfl
  simp only [computeStats] at e
  refine ⟨?_, ?_, ?_, ?_⟩
  · intro s0 hs0
    simp [report, hs0]
  · simp only [computeStats, e, hd]
    by_cases hN : (N : ℚ) = 0
    · simp [Dbl.div, Dbl.isFinite, hN]
    · have hpos : (0 : ℚ) < 3 * (N : ℚ) * (N : ℚ) * (sizeof_float : ℚ) / (1024 * 1024 * 1024) := by
        have : (0 : ℚ) < (N : ℚ) * (N : ℚ) := mul_self_pos.mpr hN
        simp only [sizeof_float]
        push_cast
        linarith
      simp [Dbl.div, Dbl.isFinite, hpos, ne_of_gt hpos]
  · simp only [computeStats, e]
    rcases lt_trichotomy (2 * (N : ℚ) ^ 3) 0 with h | h | h
    · simp [Dbl.div, Dbl.isFinite, h, ne_of_lt h, not_lt_of_gt h]
    · simp [Dbl.div, Dbl.isFinite, h]
    · simp [Dbl.div, Dbl.isFinite, h, ne_of_gt h]
  · intro hN
    have hNq : (0 : ℚ) < (N : ℚ) := by exact_mod_cast hN
    have hpos : (0 : ℚ) < 3 * (N : ℚ) * (N : ℚ) * (sizeof_float : ℚ) / (1024 * 1024 * 1024) := by
      have : (0 : ℚ) < (N : ℚ) * (N : ℚ) := mul_pos hNq hNq
      simp only [sizeof_float]
      push_cast
      linarith
    have hops : (0 : ℚ) < 2 * (N : ℚ) ^ 3 := by positivity
    simp only [computeStats, e, hd]
    simp [Dbl.div, Dbl.mul, Dbl.gt, classify, pcie_ref, hpos, ne_of_gt hpos, hops, ne_of_gt hops]
    norm_num

theorem computeStats_single_zero :
    computeStats 1024 [0] =
      { iters := 1, total_time := Dbl.fin 0, time_per_calc := Dbl.fin 0,
        data_moved_gb := Dbl.fin (3 / 256), throughput_gbs := Dbl.pinf,
        ops_per_iter := Dbl.fin 2147483648, compute_tflops := Dbl.pinf,
        utilization := Dbl.pinf } := by
  simp [computeStats, accumulate, Dbl.div, Dbl.mul, pcie_ref, sizeof_float]
  norm_num

/-- Witness for C2 (amended): `N = 1024` and the single sample 0. -/
theorem computeStats_zero_mean_witness :
    (computeStats 1024 [0]).time_per_calc = Dbl.fin 0 ∧
      (computeStats 1024 [0]).throughput_gbs.isFinite = false ∧
      (computeStats 1024 [0]).compute_tflops.isFinite = false :=
  have h0 : (computeStats 1024 [0]).time_per_calc = Dbl.fin 0 := by
    rw [computeStats_single_zero]
  ⟨h0, (computeStats_zero_mean 1024 [0] h0).2.1, (computeStats_zero_mean 1024 [0] h0).2.2.1⟩

/-- C2, counterexample. In `zeroWorld` the clock does not move during the only timed
multiply: `latencies = [0]`, the mean latency is zero, and `main` returns normally with
`throughput_gbs = +inf` and `compute_tflops = +inf`, diagnosed TransferBound. -/
theorem main_reports_infinite_throughput :
    (main 5 zeroWorld [1024, 1]).final.latencies = [0] ∧
      (computeStats 1024 [0]).time_per_calc = Dbl.fin 0 ∧
      (computeStats 1024 [0]).throughput_gbs = Dbl.pinf ∧
      (computeStats 1024 [0]).compute_tflops = Dbl.pinf ∧
      (main 5 zeroWorld [1024, 1]).outcome =
        Outcome.returned (computeStats 1024 [0]) Classification.TransferBound := by
  have e : (List.range 1).map (sampleAt zeroWorld 1) = [0] := by
    simp [List.range_succ, sampleAt, zeroWorld]
  rw [zero_run, report_exitState, e]
  refine ⟨rfl, ?_, ?_, ?_, ?_⟩
  · rw [computeStats_single_zero]
  · rw [computeStats_single_zero]
  · rw [computeStats_single_zero]
  · rw [computeStats_single_zero]
    simp [classify, Dbl.gt]

/-- C4. The diagnosis is TransferBound exactly when `utilization > 85.0` holds as a
comparison of doubles and ComputeBound otherwise; on a finite `u` that is `85 < u`, so 85.0
is ComputeBound and 85.0001 is TransferBound; `+inf` is TransferBound, NaN and `-inf` are
ComputeBound. The diagnosis `main` returns is this function of the `utilization` it
computed. -/
theorem classify_threshold :
    (∀ u : Dbl, classify u = Classification.TransferBound ↔ Dbl.gt u (Dbl.fin 85) = true) ∧
    (∀ u : Dbl, classify u = Classification.ComputeBound ↔ Dbl.gt u (Dbl.fin 85) = false) ∧
    (∀ q : ℚ, classify (Dbl.fin q) = Classification.TransferBound ↔ 85 < q) ∧
    (∀ q : ℚ, classify (Dbl.fin q) = Classification.ComputeBound ↔ q ≤ 85) ∧
    classify (Dbl.fin 85.0) = Classification.ComputeBound ∧
    classify (Dbl.fin 85.0001) = Classification.TransferBound ∧
    classify Dbl.pinf = Classification.TransferBound ∧
    classify Dbl.nan = Classification.ComputeBound ∧
    classify Dbl.ninf = Classification.ComputeBound ∧
    (∀ (fuel : Nat) (w : World) (args : List Int) (st : Stats) (c : Classification),
      (main fuel w args).outcome = Outcome.returned st c → c = classify st.utilization) := by
  have h1 : ∀ u : Dbl,
      classify u = Classification.TransferBound ↔ Dbl.gt u (Dbl.fin 85) = true := by
    intro u
    unfold classify
    by_cases h : Dbl.gt u (Dbl.fin 85) = true <;> simp [h]
  have h2 : ∀ u : Dbl,
      classify u = Classification.ComputeBound ↔ Dbl.gt u (Dbl.fin 85) = false := by
    intro u
    unfold classify
    by_cases h : Dbl.gt u (Dbl.fin 85) = true <;> simp [h]
  have h3 : ∀ q : ℚ, classify (Dbl.fin q) = Classification.TransferBound ↔ 85 < q := by
    intro q; rw [h1]; simp [Dbl.gt]
  have h4 : ∀ q : ℚ, classify (Dbl.fin q) = Classification.ComputeBound ↔ q ≤ 85 := by
    intro q; rw [h2]; simp [Dbl.gt]
  refine ⟨h1, h2, h3, h4, ?_, ?_, ?_, ?_, ?_, ?_⟩
  · rw [h4]; norm_num
  · rw [h3]; norm_num
  · rw [h1]; simp [Dbl.gt]
  · rw [h2]; simp [Dbl.gt]
  · rw [h2]; simp [Dbl.gt]
  · intro fuel w args st c h
    exact (main_stats fuel w args st c h).2

/-- Witness for C4: the run `main 5 steadyWorld [1024, 1]` computes a utilization of
25/168 percent, not above 85, and is diagnosed ComputeBound. -/
theorem classify_threshold_witness :
    (main 5 steadyWorld [1024, 1]).outcome =
        Outcome.returned (computeStats 1024 [1 / 4]) Classification.ComputeBound ∧
      (computeStats 1024 [1 / 4]).utilization = Dbl.fin (25 / 168) ∧
      Classification.ComputeBound = classify (computeStats 1024 [1 / 4]).utilization ∧
      ((25 / 168 : ℚ) ≤ 85 ∧ classify (Dbl.fin (25 / 168)) = Classification.ComputeBound) :=
  have hq : (25 / 168 : ℚ) ≤ 85 := by norm_num
  have hu : (computeStats 1024 [1 / 4]).utilization = Dbl.fin (25 / 168) := by
    rw [computeStats_quarter]
  ⟨steady_outcome, hu,
    classify_threshold.2.2.2.2.2.2.2.2.2 5 steadyWorld [1024, 1] _ _ steady_outcome,
    hq, (classify_threshold.2.2.2.1 (25 / 168)).mpr hq⟩

/-! ## Failing invocations (C6) -/

theorem syncFail_run :
    main 5 syncFailWorld [1024, 1] =
      report 1024 (exitState syncFailWorld (loopEntry syncFailWorld 1024) 1) := by
  have h := main_returns 5 syncFailWorld [1024, 1] 1
    (by simp [setupOk, syncFailWorld, steadyWorld]) rfl
    (by
      intro i hi
      have hi0 : i = 0 := by omega
      subst hi0
      refine ⟨?_, rfl⟩
      simp [checkPasses, syncFailWorld, steadyWorld, argDuration]
      norm_num)
    (by simp [checkPasses, syncFailWorld, steadyWorld, argDuration]) (by omega)
  simpa [argN] using h

/-- A multiply call that reports a non-success status ends the run at that call: with the
set-up done, the warm-up and the first `k` timed multiplies successful and the checks
before them and before the next one passed, a failure of multiply number `k + 1` makes
`main` exit there. The failing call is the last call made, `latencies` holds the `k`
samples of the earlier timed multiplies and none for the failed one, and `k + 2` multiply
calls were made in all. A failing warm-up exits likewise after one multiply call. -/
theorem main_exits_at_failed_multiply (fuel : Nat) (w : World) (args : List Int) (k : Nat)
    (hs : setupOk w) :
    (w.sgemm 0 = false →
      (main fuel w args).outcome = Outcome.exited (Event.cublasXtSgemm 0) ∧
      (main fuel w args).final.trace = setupTrace w (argN args) ++ [Event.cublasXtSgemm 0] ∧
      (main fuel w args).final.latencies = []) ∧
    (w.sgemm 0 = true →
      (∀ i, i < k → w.time (1 + 3 * i) - w.time 0 < (argDuration args : ℚ) ∧
        w.sgemm (1 + i) = true) →
      w.time (1 + 3 * k) - w.time 0 < (argDuration args : ℚ) → w.sgemm (1 + k) = false →
      k < fuel →
      (main fuel w args).outcome = Outcome.exited (Event.cublasXtSgemm (1 + k)) ∧
      (main fuel w args).final.trace =
        setupTrace w (argN args) ++
          [Event.cublasXtSgemm 0, Event.cudaDeviceSynchronize 0, Event.get_time 0] ++
          (List.range k).flatMap (iterEvents w 1 1 1) ++
          [Event.get_time (1 + 3 * k), Event.get_time (1 + 3 * k + 1),
            Event.cublasXtSgemm (1 + k)] ∧
      (main fuel w args).final.latencies = (List.range k).map (sampleAt w 1) ∧
      invocations (main fuel w args).final.trace = k + 2) := by
  constructor
  · intro hw
    rw [main_warmup_failed fuel w args hs hw]
    exact ⟨rfl, rfl, rfl⟩
  · intro hw hall hk hbad hf
    rw [main_of_setup fuel w args hs hw,
      samplingLoop_failed_of w (argDuration args) (w.time 0) (loopEntry w (argN args)) k fuel
        hall hk hbad hf]
    refine ⟨?_, ?_, ?_, ?_⟩
    · simp [failState, cublasXtSgemm, get_time, St.emit, afterIters, loopEntry]
    · simp [failState, cublasXtSgemm, get_time, St.emit, afterIters, loopEntry]
    · simp [failState, cublasXtSgemm, get_time, St.emit, afterIters, loopEntry]
    · simp only [failState, cublasXtSgemm, get_time, St.emit, afterIters, loopEntry,
        invocations_append, invocations_iterations]
      simp [invocations, setupTrace]
      omega

/-- C6, the run that departs from the claim. In `syncFailWorld` every
`cudaDeviceSynchronize` reports an error, the one of the warm-up included; `main` does not
look at that status: the run makes both multiplies, records the sample 1/4 and returns
with statistics and diagnosis. -/
theorem main_ignores_failed_synchronize :
    syncFailWorld.deviceSynchronize 0 = false ∧ syncFailWorld.deviceSynchronize 1 = false ∧
      (main 5 syncFailWorld [1024, 1]).outcome =
        Outcome.returned (computeStats 1024 [1 / 4]) Classification.ComputeBound ∧
      (main 5 syncFailWorld [1024, 1]).final.latencies = [1 / 4] ∧
      invocations (main 5 syncFailWorld [1024, 1]).final.trace = 2 ∧
      Event.cudaDeviceSynchronize 0 ∈ (main 5 syncFailWorld [1024, 1]).final.trace ∧
      Event.cudaDeviceSynchronize 1 ∈ (main 5 syncFailWorld [1024, 1]).final.trace := by
  have e : (List.range 1).map (sampleAt syncFailWorld 1) = [1 / 4] := by
    simp [List.range_succ, sampleAt, syncFailWorld, steadyWorld]
    norm_num
  rw [syncFail_run, report_exitState, e]
  refine ⟨rfl, rfl, ?_, rfl, ?_, ?_, ?_⟩
  · have hu : (computeStats 1024 [1 / 4]).utilization = Dbl.fin (25 / 168) := by
      rw [computeStats_quarter]
    rw [hu]
    simp [classify, Dbl.gt]
    norm_num
  · simp [invocations, setupTrace, cleanupTrace, List.range_succ, iterEvents]
  · simp
  · simp [List.range_succ, iterEvents]

end MultiGpuGemm
